import Mathlib

set_option maxRecDepth 8192

/-!
Verification development for the Palma peripheral driver stub
(`src/core/hle/service/hid/controllers/palma.h`).

The repository provides the header: the enumerations, the binary record
layouts (with their `static_assert` sizes) and the command surface of
`Controller_Palma`.  The method bodies live in a translation unit that is
not part of the sources, so the behavioural model below is built from the
design document, while every data-model fact (enum values, field order,
record sizes, default member initializers) is taken from the header.
-/

namespace Palma

/-- Operation kinds, from `enum class PalmaOperationType` in palma.h.
The order is the order of the C++ enumerators, so `PlayActivity` is the
enumeration's zero value. -/
inductive PalmaOperationType where
  | PlayActivity
  | SetFrModeType
  | ReadStep
  | EnableStep
  | ResetStep
  | ReadApplicationSection
  | WriteApplicationSection
  | ReadUniqueCode
  | SetUniqueCodeInvalid
  | WriteActivityEntry
  | WriteRgbLedPatternEntry
  | WriteWaveEntry
  | ReadDataBaseIdentificationVersion
  | WriteDataBaseIdentificationVersion
  | SuspendFeature
  | ReadPlayLog
  | ResetPlayLog
deriving DecidableEq, Repr

/-- Numeric value of each enumerator of `PalmaOperationType`: the C++
enumeration declares no explicit values, so they are 0,1,2,... in
declaration order. -/
def PalmaOperationType.toCValue : PalmaOperationType → Nat
  | .PlayActivity => 0
  | .SetFrModeType => 1
  | .ReadStep => 2
  | .EnableStep => 3
  | .ResetStep => 4
  | .ReadApplicationSection => 5
  | .WriteApplicationSection => 6
  | .ReadUniqueCode => 7
  | .SetUniqueCodeInvalid => 8
  | .WriteActivityEntry => 9
  | .WriteRgbLedPatternEntry => 10
  | .WriteWaveEntry => 11
  | .ReadDataBaseIdentificationVersion => 12
  | .WriteDataBaseIdentificationVersion => 13
  | .SuspendFeature => 14
  | .ReadPlayLog => 15
  | .ResetPlayLog => 16

/-- Wave sets, from `enum class PalmaWaveSet : u64` in palma.h. -/
inductive PalmaWaveSet where
  | Small
  | Medium
  | Large
deriving DecidableEq, Repr

/-- FR modes, from `enum class PalmaFrModeType : u64` in palma.h. -/
inductive PalmaFrModeType where
  | Off
  | B01
  | B02
  | B03
  | Downloaded
deriving DecidableEq, Repr

/-- Features, from `enum class PalmaFeature : u64` in palma.h. -/
inductive PalmaFeature where
  | FrMode
  | RumbleFeedback
  | Step
  | MuteSwitch
deriving DecidableEq, Repr

/-- Result codes of the command surface.  Modelled from the spec:
`errors.h` (which defines the concrete codes) is not among the sources;
the spec's error taxonomy lists exactly `InvalidHandle`, `NotInitialized`,
`NotPaired` and `InvalidParameters` next to success. -/
inductive PalmaResult where
  | Success
  | InvalidHandle
  | NotInitialized
  | NotPaired
  | InvalidParameters
deriving DecidableEq, Repr

/-- The 320-byte (0x140) opaque payload `PalmaOperationData =
std::array<u8, 0x140>` from palma.h, modelled as a list of byte values. -/
def PalmaOperationData : Type := List Nat

instance : DecidableEq PalmaOperationData :=
  inferInstanceAs (DecidableEq (List Nat))

instance : Repr PalmaOperationData := inferInstanceAs (Repr (List Nat))

/-- The all-zero payload: value of `PalmaOperationData data{}` in C++. -/
def zeroPayload : PalmaOperationData := List.replicate 320 0

/-- Operation record, from `struct PalmaOperationInfo` in palma.h.  The
defaults mirror the member initializers in the header:
`PalmaOperationType operation{}` zero-initializes to the enumeration's
zero value `PlayActivity`, `Result result{PalmaResultSuccess}` and
`PalmaOperationData data{}` (all bytes zero). -/
structure PalmaOperationInfo where
  operation : PalmaOperationType := .PlayActivity
  result : PalmaResult := .Success
  data : PalmaOperationData := zeroPayload
deriving DecidableEq, Repr

/-- Connection handle.  The header's `struct PalmaConnectionHandle` carries
the 4-byte `npad_id` plus 4 padding bytes marked `Unknown`.  Modelled from
the spec for the freshness part: the spec requires that a released handle
never validates again, even after a new handle is acquired for the same
device identifier, so the model gives each acquisition a fresh generation
tag alongside the device identifier from the header. -/
structure PalmaConnectionHandle where
  npad_id : Nat
  gen : Nat
deriving DecidableEq, Repr

/-- Connectivity state of the single tracked handle.  Modelled from the
spec: the state machine `Unattached → Acquired → Initialized → Paired`. -/
inductive ConnState where
  | Unattached
  | Acquired
  | Initialized
  | Paired
deriving DecidableEq, Repr

/-- Whether the connectivity state is at least `Initialized`, the
precondition of every deferred command per the spec. -/
def ConnState.atLeastInit : ConnState → Bool
  | .Unattached => false
  | .Acquired => false
  | .Initialized => true
  | .Paired => true

/-- State of the driver stub.  The data fields mirror the private members
of `Controller_Palma` in palma.h (`is_connectable`, `database_id_version`,
`operation`, `fr_mode`, `active_handle`).  Modelled from the spec for the
rest: `conn_state` is the spec's connectivity state machine, `next_gen`
is the model's supply of fresh handle generations, `signal_count` and
`signaled` model the completion signal (`operation_complete_event`): a
raise increments the count and sets the level-triggered flag. -/
structure Stub where
  is_connectable : Bool := false
  boost_mode : Bool := false
  database_id_version : Int := 0
  operation : PalmaOperationInfo := {}
  fr_mode : PalmaFrModeType := .Off
  active_handle : Option PalmaConnectionHandle := none
  conn_state : ConnState := .Unattached
  next_gen : Nat := 0
  signal_count : Nat := 0
  signaled : Bool := false
deriving DecidableEq, Repr

/-- The stub with every member at its default value, as after
construction / `OnInit`. -/
def initStub : Stub := {}

/-- Modelled from the spec: `acquire(deviceId)` fails with `InvalidHandle`
when the identifier does not correspond to an attachable peripheral slot;
the attachable slots are the eight player npad ids. -/
def IsPalmaAttachable (npad_id : Nat) : Bool := npad_id < 8

/-- Modelled from the spec: `initialize` fails with `NotPaired` when the
underlying device cannot accept a peripheral.  The spec gives no criterion
under which an attachable device refuses, so the model accepts always. -/
def devicePairable (_npad_id : Nat) : Bool := true

/-- The handle-taking commands of the `Controller_Palma` surface, one
constructor per public method of palma.h that takes a
`PalmaConnectionHandle` (the wave-entry write carries its source memory
range as the list of bytes readable at `t_mem`). -/
inductive Cmd where
  | InitializePalma
  | GetPalmaOperationInfo
  | GetPalmaOperationResult
  | PlayPalmaActivity (palma_activity : Nat)
  | SetPalmaFrModeType (fr_mode : PalmaFrModeType)
  | ReadPalmaStep
  | EnablePalmaStep (is_enabled : Bool)
  | ResetPalmaStep
  | ReadPalmaUniqueCode
  | SetPalmaUniqueCodeInvalid
  | WritePalmaRgbLedPatternEntry (unknown : Nat)
  | WritePalmaWaveEntry (wave : PalmaWaveSet) (t_mem : List Nat) (size : Nat)
  | SetPalmaDataBaseIdentificationVersion (version : Int)
  | GetPalmaDataBaseIdentificationVersion
  | PairPalma
deriving DecidableEq, Repr

/-- The operation kind a command records on success, `none` for commands
that do not populate the operation record (`PairPalma` has no enumerator
in `PalmaOperationType`; queries and `InitializePalma` record nothing). -/
def cmdOpKind : Cmd → Option PalmaOperationType
  | .PlayPalmaActivity _ => some .PlayActivity
  | .SetPalmaFrModeType _ => some .SetFrModeType
  | .ReadPalmaStep => some .ReadStep
  | .EnablePalmaStep _ => some .EnableStep
  | .ResetPalmaStep => some .ResetStep
  | .ReadPalmaUniqueCode => some .ReadUniqueCode
  | .SetPalmaUniqueCodeInvalid => some .SetUniqueCodeInvalid
  | .WritePalmaRgbLedPatternEntry _ => some .WriteRgbLedPatternEntry
  | .WritePalmaWaveEntry _ _ _ => some .WriteWaveEntry
  | .SetPalmaDataBaseIdentificationVersion _ => some .WriteDataBaseIdentificationVersion
  | .GetPalmaDataBaseIdentificationVersion => some .ReadDataBaseIdentificationVersion
  | .PairPalma => none
  | .InitializePalma => none
  | .GetPalmaOperationInfo => none
  | .GetPalmaOperationResult => none

/-- Deferred commands: the commands that require connectivity state at
least `Initialized` and raise the completion signal on success.  Per the
spec these are the record-populating commands together with pairing. -/
def Cmd.isDeferred : Cmd → Bool
  | .InitializePalma => false
  | .GetPalmaOperationInfo => false
  | .GetPalmaOperationResult => false
  | .PlayPalmaActivity _ => true
  | .SetPalmaFrModeType _ => true
  | .ReadPalmaStep => true
  | .EnablePalmaStep _ => true
  | .ResetPalmaStep => true
  | .ReadPalmaUniqueCode => true
  | .SetPalmaUniqueCodeInvalid => true
  | .WritePalmaRgbLedPatternEntry _ => true
  | .WritePalmaWaveEntry _ _ _ => true
  | .SetPalmaDataBaseIdentificationVersion _ => true
  | .GetPalmaDataBaseIdentificationVersion => true
  | .PairPalma => true

/-- Payload stored by a wave-entry write: the source bytes, truncated or
zero-padded to the fixed 320-byte record payload. -/
def wavePayload (t_mem : List Nat) : PalmaOperationData :=
  t_mem.take 320 ++ List.replicate (320 - t_mem.length) 0

/-- Record a successful deferred operation: overwrite the operation record
with the kind, a success result and the payload, and raise the completion
signal.  Modelled from the spec: result and payload are set together, and
each deferred command re-raises the level-triggered signal. -/
def recordOperation (s : Stub) (k : PalmaOperationType) (d : PalmaOperationData) : Stub :=
  { s with operation := { operation := k, result := .Success, data := d },
           signal_count := s.signal_count + 1,
           signaled := true }

/-- Gate a deferred command on the connectivity state: below `Initialized`
it fails with `NotInitialized` and mutates nothing. -/
def ifInit (s : Stub) (r : PalmaResult × Stub) : PalmaResult × Stub :=
  if s.conn_state.atLeastInit then r else (.NotInitialized, s)

/-- Semantics of a command whose handle already validated.  Modelled from
the spec: `initialize` moves the state machine to `Initialized`
(`NotPaired` if the device cannot accept), the two queries read the
operation record without mutating anything, every deferred command
requires state at least `Initialized`, populates the record (its kind,
success, payload) and raises the signal; the wave-entry write first
bounds-checks the declared size against the source range and fails with
`InvalidParameters` on mismatch; pairing moves the state machine to
`Paired`.  Configuration values (`fr_mode`, `database_id_version`) are
stored alongside their record. -/
def stepValid (s : Stub) (h : PalmaConnectionHandle) : Cmd → PalmaResult × Stub
  | .InitializePalma =>
      if devicePairable h.npad_id then (.Success, { s with conn_state := .Initialized })
      else (.NotPaired, s)
  | .GetPalmaOperationInfo => (.Success, s)
  | .GetPalmaOperationResult => (s.operation.result, s)
  | .PlayPalmaActivity _ =>
      ifInit s (.Success, recordOperation s .PlayActivity zeroPayload)
  | .SetPalmaFrModeType m =>
      ifInit s (.Success, { recordOperation s .SetFrModeType zeroPayload with fr_mode := m })
  | .ReadPalmaStep =>
      ifInit s (.Success, recordOperation s .ReadStep zeroPayload)
  | .EnablePalmaStep _ =>
      ifInit s (.Success, recordOperation s .EnableStep zeroPayload)
  | .ResetPalmaStep =>
      ifInit s (.Success, recordOperation s .ResetStep zeroPayload)
  | .ReadPalmaUniqueCode =>
      ifInit s (.Success, recordOperation s .ReadUniqueCode zeroPayload)
  | .SetPalmaUniqueCodeInvalid =>
      ifInit s (.Success, recordOperation s .SetUniqueCodeInvalid zeroPayload)
  | .WritePalmaRgbLedPatternEntry _ =>
      ifInit s (.Success, recordOperation s .WriteRgbLedPatternEntry zeroPayload)
  | .WritePalmaWaveEntry _ t_mem size =>
      ifInit s (if size = t_mem.length then
                  (.Success, recordOperation s .WriteWaveEntry (wavePayload t_mem))
                else (.InvalidParameters, s))
  | .SetPalmaDataBaseIdentificationVersion v =>
      ifInit s (.Success,
        { recordOperation s .WriteDataBaseIdentificationVersion zeroPayload with
            database_id_version := v })
  | .GetPalmaDataBaseIdentificationVersion =>
      ifInit s (.Success, recordOperation s .ReadDataBaseIdentificationVersion zeroPayload)
  | .PairPalma =>
      ifInit s (.Success,
        { s with conn_state := .Paired, signal_count := s.signal_count + 1, signaled := true })

/-- One command call.  Modelled from the spec: every handle-taking
operation first validates the handle against the single currently active
handle and fails with `InvalidHandle`, mutating nothing, when it does not
match. -/
def step (s : Stub) (h : PalmaConnectionHandle) (c : Cmd) : PalmaResult × Stub :=
  if s.active_handle = some h then stepValid s h c else (.InvalidHandle, s)

/-- Acquire a connection handle (`GetPalmaConnectionHandle`).  Modelled
from the spec: allocates a handle for the device identifier (fresh
generation), makes it the single active handle in state `Acquired`;
fails with `InvalidHandle` for an identifier with no attachable slot. -/
def GetPalmaConnectionHandle (s : Stub) (npad_id : Nat) :
    PalmaResult × PalmaConnectionHandle × Stub :=
  if IsPalmaAttachable npad_id then
    (.Success, ⟨npad_id, s.next_gen⟩,
      { s with active_handle := some ⟨npad_id, s.next_gen⟩,
               conn_state := .Acquired,
               next_gen := s.next_gen + 1 })
  else (.InvalidHandle, ⟨npad_id, s.next_gen⟩, s)

/-- Release (`OnRelease`).  Modelled from the spec: returns to `Unattached`
from any state, invalidates the handle and resets the stub members to
their defaults.  The generation supply is the model's bookkeeping for
never re-issuing a handle and survives; the signal is owned externally
and is not cleared by the stub. -/
def OnRelease (s : Stub) : Stub :=
  { s with is_connectable := false,
           boost_mode := false,
           database_id_version := 0,
           operation := {},
           fr_mode := .Off,
           active_handle := none,
           conn_state := .Unattached }

/-- Pure flag setter `SetIsPalmaAllConnectable`: stores the flag; takes no
handle, records nothing, raises no signal. -/
def SetIsPalmaAllConnectable (s : Stub) (is_all_connectable : Bool) : Stub :=
  { s with is_connectable := is_all_connectable }

/-- Pure flag setter `SetPalmaBoostMode`: stores the flag; takes no
handle, records nothing, raises no signal. -/
def SetPalmaBoostMode (s : Stub) (boost_mode : Bool) : Stub :=
  { s with boost_mode := boost_mode }

/-- Read the operation record (`GetPalmaOperationInfo`).  Modelled from
the spec: fails with `InvalidHandle` when the handle is stale, otherwise
returns whatever the last-recorded operation record holds, as the triple
(kind, result, payload). -/
def GetPalmaOperationInfo (s : Stub) (h : PalmaConnectionHandle) :
    Except PalmaResult (PalmaOperationType × PalmaResult × PalmaOperationData) :=
  if s.active_handle = some h then
    .ok (s.operation.operation, s.operation.result, s.operation.data)
  else .error .InvalidHandle

instance {ε α : Type} [DecidableEq ε] [DecidableEq α] : DecidableEq (Except ε α) := fun x y =>
  match x, y with
  | .error a, .error b =>
      if h : a = b then .isTrue (by rw [h])
      else .isFalse (by intro hc; cases hc; exact h rfl)
  | .ok a, .ok b =>
      if h : a = b then .isTrue (by rw [h])
      else .isFalse (by intro hc; cases hc; exact h rfl)
  | .error _, .ok _ => .isFalse (by intro hc; cases hc)
  | .ok _, .error _ => .isFalse (by intro hc; cases hc)

/-- Guest-visible events that drive the stub. -/
inductive Event where
  | GetPalmaConnectionHandle (npad_id : Nat)
  | OnRelease
  | cmd (h : PalmaConnectionHandle) (c : Cmd)
  | SetIsPalmaAllConnectable (b : Bool)
  | SetPalmaBoostMode (b : Bool)
deriving DecidableEq, Repr

/-- Effect of one event on the stub state. -/
def exec (s : Stub) : Event → Stub
  | .GetPalmaConnectionHandle npad_id => (GetPalmaConnectionHandle s npad_id).2.2
  | .OnRelease => OnRelease s
  | .cmd h c => (step s h c).2
  | .SetIsPalmaAllConnectable b => SetIsPalmaAllConnectable s b
  | .SetPalmaBoostMode b => SetPalmaBoostMode s b

/-- Run a list of events from a given state, left to right. -/
def runFrom (s : Stub) : List Event → Stub
  | [] => s
  | e :: es => runFrom (exec s e) es

/-- Run a list of events from the freshly constructed stub. -/
def run (es : List Event) : Stub := runFrom initStub es

/-- Whether an event populates the operation record on success. -/
def Event.writesRecord : Event → Bool
  | .GetPalmaConnectionHandle _ => false
  | .OnRelease => false
  | .cmd _ c => (cmdOpKind c).isSome
  | .SetIsPalmaAllConnectable _ => false
  | .SetPalmaBoostMode _ => false

/-- Invariant: any active handle carries a generation strictly below the
next generation to be issued. -/
def GenOK (s : Stub) : Prop :=
  ∀ h : PalmaConnectionHandle, s.active_handle = some h → h.gen < s.next_gen

/-- A handle that is not the active one and whose generation has already
been consumed: such a handle can never validate again. -/
def Stale (h : PalmaConnectionHandle) (s : Stub) : Prop :=
  s.active_handle ≠ some h ∧ h.gen < s.next_gen

/-! ### C++ record layout

The layout calculator follows the Itanium C++ rules the emulator relies on
for these standard-layout structs: each field is placed at its offset
aligned up to the field's alignment, and the struct size is the end of the
last field aligned up to the struct's alignment (the maximum field
alignment).  `INSERT_PADDING_BYTES(n)` declares an `std::array<u8, n>`
member: size `n`, alignment 1. -/

/-- Size and alignment of one C++ struct member. -/
structure CField where
  size : Nat
  align : Nat
deriving DecidableEq, Repr

/-- Round `off` up to a multiple of `a`. -/
def alignUp (off a : Nat) : Nat :=
  if a = 0 then off else a * ((off + a - 1) / a)

/-- Offsets assigned to the fields, starting at `off`. -/
def fieldOffsets (off : Nat) : List CField → List Nat
  | [] => []
  | f :: fs => alignUp off f.align :: fieldOffsets (alignUp off f.align + f.size) fs

/-- End offset after placing the fields, starting at `off`. -/
def structEnd (off : Nat) : List CField → Nat
  | [] => off
  | f :: fs => structEnd (alignUp off f.align + f.size) fs

/-- Alignment of the struct: maximum field alignment (at least 1). -/
def structAlign (fs : List CField) : Nat :=
  fs.foldr (fun f a => max f.align a) 1

/-- Size of the struct: end of the last field rounded up to the struct
alignment. -/
def sizeofC (fs : List CField) : Nat :=
  alignUp (structEnd 0 fs) (structAlign fs)

/-- Fields of `struct PalmaOperationInfo` (palma.h lines 76-80):
`PalmaOperationType operation` (underlying `int`: 4 bytes, align 4),
`Result result` (wraps a `u32`: 4 bytes, align 4), `PalmaOperationData
data` (`std::array<u8, 0x140>`: 320 bytes, align 1). -/
def palmaOperationInfoFields : List CField := [⟨4, 4⟩, ⟨4, 4⟩, ⟨320, 1⟩]

/-- Fields of `struct PalmaActivityEntry` (palma.h lines 84-90):
`u32 rgb_led_pattern_index` (4, align 4), `INSERT_PADDING_BYTES(2)`
(2, align 1), `PalmaWaveSet wave_set` (underlying `u64`: 8, align 8),
`u32 wave_index` (4, align 4), `INSERT_PADDING_BYTES(12)` (12, align 1). -/
def palmaActivityEntryFields : List CField :=
  [⟨4, 4⟩, ⟨2, 1⟩, ⟨8, 8⟩, ⟨4, 4⟩, ⟨12, 1⟩]

/-- Fields of `struct PalmaConnectionHandle` (palma.h lines 93-96):
`Core::HID::NpadIdType npad_id` (underlying `u32`: 4, align 4),
`INSERT_PADDING_BYTES(4)` (4, align 1). -/
def palmaConnectionHandleFields : List CField := [⟨4, 4⟩, ⟨4, 1⟩]

/-- The spec's enumeration of the `ActivityEntry` layout, as consecutive
pieces with the stated byte counts: pattern index 4, padding 2, wave-set
tag 8, wave index 4, padding 12.  Kept separate from the source-derived
field list so the two can be compared. -/
def specActivityEntryPieces : List Nat := [4, 2, 8, 4, 12]

/-! ### Helper lemmas -/

theorem step_not_active {s : Stub} {h : PalmaConnectionHandle} (c : Cmd)
    (hna : s.active_handle ≠ some h) : step s h c = (.InvalidHandle, s) := by
  simp [step, hna]

theorem step_success_active {s : Stub} {h : PalmaConnectionHandle} {c : Cmd}
    (hs : (step s h c).1 = .Success) : s.active_handle = some h := by
  by_contra hna
  rw [step_not_active c hna] at hs
  exact PalmaResult.noConfusion hs

theorem stepValid_preserves (s : Stub) (h : PalmaConnectionHandle) (c : Cmd) :
    (stepValid s h c).2.active_handle = s.active_handle ∧
    (stepValid s h c).2.next_gen = s.next_gen := by
  cases c <;> simp [stepValid, ifInit, recordOperation, devicePairable] <;>
    (repeat' split) <;> simp

theorem step_preserves (s : Stub) (h : PalmaConnectionHandle) (c : Cmd) :
    (step s h c).2.active_handle = s.active_handle ∧
    (step s h c).2.next_gen = s.next_gen := by
  rw [step]
  split
  · exact stepValid_preserves s h c
  · exact ⟨rfl, rfl⟩

theorem exec_genOK {s : Stub} (hI : GenOK s) (e : Event) : GenOK (exec s e) := by
  cases e with
  | GetPalmaConnectionHandle n =>
      by_cases hA : IsPalmaAttachable n
      · intro h hh
        simp [exec, GetPalmaConnectionHandle, hA] at hh ⊢
        rw [← hh]
        exact Nat.lt_succ_self _
      · intro h hh
        simp [exec, GetPalmaConnectionHandle, hA] at hh ⊢
        exact hI h hh
  | OnRelease =>
      intro h hh
      simp [exec, OnRelease] at hh
  | cmd h0 c =>
      intro h hh
      have h1 : (exec s (.cmd h0 c)).active_handle = s.active_handle :=
        (step_preserves s h0 c).1
      have h2 : (exec s (.cmd h0 c)).next_gen = s.next_gen :=
        (step_preserves s h0 c).2
      rw [h2]
      exact hI h (h1.symm.trans hh)
  | SetIsPalmaAllConnectable b => exact fun h hh => hI h hh
  | SetPalmaBoostMode b => exact fun h hh => hI h hh

theorem runFrom_genOK {s : Stub} (hI : GenOK s) (es : List Event) :
    GenOK (runFrom s es) := by
  induction es generalizing s with
  | nil => exact hI
  | cons e es ih => exact ih (exec_genOK hI e)

theorem run_genOK (es : List Event) : GenOK (run es) :=
  runFrom_genOK (fun _ hh => Option.noConfusion hh) es

theorem exec_stale {h : PalmaConnectionHandle} {s : Stub} (hst : Stale h s)
    (e : Event) : Stale h (exec s e) := by
  obtain ⟨hna, hlt⟩ := hst
  cases e with
  | GetPalmaConnectionHandle n =>
      by_cases hA : IsPalmaAttachable n
      · constructor
        · simp [exec, GetPalmaConnectionHandle, hA]
          intro hh
          rw [← hh] at hlt
          exact absurd hlt (Nat.lt_irrefl _)
        · simp [exec, GetPalmaConnectionHandle, hA]
          exact Nat.lt_succ_of_lt hlt
      · exact ⟨by simpa [exec, GetPalmaConnectionHandle, hA] using hna,
               by simpa [exec, GetPalmaConnectionHandle, hA] using hlt⟩
  | OnRelease =>
      exact ⟨by simp [exec, OnRelease], by simpa [exec, OnRelease] using hlt⟩
  | cmd h0 c =>
      exact ⟨by rw [exec, (step_preserves s h0 c).1]; exact hna,
             by rw [exec, (step_preserves s h0 c).2]; exact hlt⟩
  | SetIsPalmaAllConnectable b => exact ⟨hna, hlt⟩
  | SetPalmaBoostMode b => exact ⟨hna, hlt⟩

theorem runFrom_stale {h : PalmaConnectionHandle} {s : Stub} (hst : Stale h s)
    (es : List Event) : Stale h (runFrom s es) := by
  induction es generalizing s with
  | nil => exact hst
  | cons e es ih => exact ih (exec_stale hst e)

theorem runFrom_append (s : Stub) (as bs : List Event) :
    runFrom s (as ++ bs) = runFrom (runFrom s as) bs := by
  induction as generalizing s with
  | nil => rfl
  | cons a as ih => simp [runFrom, ih]

set_option linter.unnecessarySeqFocus false in
theorem step_opKind_none {s : Stub} {h : PalmaConnectionHandle} {c : Cmd}
    (hk : cmdOpKind c = none) : (step s h c).2.operation = s.operation := by
  rw [step]
  split
  · cases c <;> simp [cmdOpKind] at hk ⊢ <;>
      simp [stepValid, ifInit, devicePairable] <;> (repeat' split) <;> simp
  · rfl

theorem exec_operation_default {s : Stub} {e : Event} (hop : s.operation = {})
    (hw : e.writesRecord = false) : (exec s e).operation = {} := by
  cases e with
  | GetPalmaConnectionHandle n =>
      by_cases hA : IsPalmaAttachable n <;>
        simpa [exec, GetPalmaConnectionHandle, hA] using hop
  | OnRelease => rfl
  | cmd h c =>
      rw [exec, step_opKind_none (Option.not_isSome_iff_eq_none.mp (by
        simpa [Event.writesRecord] using hw))]
      exact hop
  | SetIsPalmaAllConnectable b => exact hop
  | SetPalmaBoostMode b => exact hop

theorem runFrom_operation_default {s : Stub} {es : List Event}
    (hop : s.operation = {}) (hw : ∀ e ∈ es, e.writesRecord = false) :
    (runFrom s es).operation = {} := by
  induction es generalizing s with
  | nil => exact hop
  | cons e es ih =>
      exact ih (exec_operation_default hop (hw e (List.mem_cons_self e es)))
        (fun e' he' => hw e' (List.mem_cons_of_mem e he'))

theorem step_success_record {s : Stub} {h : PalmaConnectionHandle} {c : Cmd}
    {k : PalmaOperationType} (hk : cmdOpKind c = some k)
    (hs : (step s h c).1 = .Success) :
    ∃ d, (step s h c).2.operation =
            { operation := k, result := .Success, data := d } ∧
         (step s h c).2.active_handle = some h := by
  have hv := step_success_active hs
  refine ⟨(step s h c).2.operation.data, ?_, ((step_preserves s h c).1).trans hv⟩
  rw [step, if_pos hv] at hs ⊢
  cases c <;> simp [cmdOpKind] at hk <;> subst hk <;>
    simp only [stepValid, ifInit, recordOperation] at hs ⊢ <;>
    (repeat' split at hs) <;> simp_all

/-! ### Claim theorems -/

/-- Claim C1: after every successful record-writing deferred command,
`GetPalmaOperationInfo` on the same (still valid) handle returns exactly
the operation kind and the success result that the command recorded; the
read itself mutates nothing, so repeated reads keep returning the same
record; and the record is last-write-wins: in the scenario acquire,
initialize, `WritePalmaRgbLedPatternEntry 0xAB`, then `ReadPalmaStep`
without consuming the prior result, `GetPalmaOperationInfo` reports
`ReadStep`, not the earlier write. -/
theorem palma_C1_operation_info_last_write_wins (s : Stub)
    (h : PalmaConnectionHandle) (c : Cmd) (k : PalmaOperationType)
    (hk : cmdOpKind c = some k) (hs : (step s h c).1 = .Success) :
    GetPalmaOperationInfo (step s h c).2 h
      = .ok (k, .Success, (step s h c).2.operation.data) ∧
    (step (step s h c).2 h .GetPalmaOperationInfo).2 = (step s h c).2 ∧
    GetPalmaOperationInfo
      (run [.GetPalmaConnectionHandle 0, .cmd ⟨0, 0⟩ .InitializePalma,
            .cmd ⟨0, 0⟩ (.WritePalmaRgbLedPatternEntry 171),
            .cmd ⟨0, 0⟩ .ReadPalmaStep]) ⟨0, 0⟩
      = .ok (.ReadStep, .Success, zeroPayload) := by
  obtain ⟨d, hop, hact⟩ := step_success_record hk hs
  refine ⟨?_, ?_, by rfl⟩
  · rw [GetPalmaOperationInfo, if_pos hact, hop]
  · rw [step, if_pos hact]
    rfl

/-- Witness for C1 at a concrete input: acquire then initialize, then a
successful `ReadPalmaStep`. -/
theorem palma_C1_witness :
    GetPalmaOperationInfo
        (step (run [.GetPalmaConnectionHandle 0, .cmd ⟨0, 0⟩ .InitializePalma])
          ⟨0, 0⟩ .ReadPalmaStep).2 ⟨0, 0⟩
      = .ok (.ReadStep, .Success,
          (step (run [.GetPalmaConnectionHandle 0, .cmd ⟨0, 0⟩ .InitializePalma])
            ⟨0, 0⟩ .ReadPalmaStep).2.operation.data) ∧
    (step (step (run [.GetPalmaConnectionHandle 0, .cmd ⟨0, 0⟩ .InitializePalma])
          ⟨0, 0⟩ .ReadPalmaStep).2 ⟨0, 0⟩ .GetPalmaOperationInfo).2
      = (step (run [.GetPalmaConnectionHandle 0, .cmd ⟨0, 0⟩ .InitializePalma])
          ⟨0, 0⟩ .ReadPalmaStep).2 ∧
    GetPalmaOperationInfo
      (run [.GetPalmaConnectionHandle 0, .cmd ⟨0, 0⟩ .InitializePalma,
            .cmd ⟨0, 0⟩ (.WritePalmaRgbLedPatternEntry 171),
            .cmd ⟨0, 0⟩ .ReadPalmaStep]) ⟨0, 0⟩
      = .ok (.ReadStep, .Success, zeroPayload) :=
  palma_C1_operation_info_last_write_wins
    (run [.GetPalmaConnectionHandle 0, .cmd ⟨0, 0⟩ .InitializePalma])
    ⟨0, 0⟩ .ReadPalmaStep .ReadStep (by rfl) (by rfl)

/-- Claim C2: a handle that does not match the single currently active
handle, and in particular a handle whose generation was never issued
(never acquired), makes every handle-taking operation fail with
`InvalidHandle`, in any reachable stub state. -/
theorem palma_C2_unacquired_handle_fails (es : List Event)
    (h : PalmaConnectionHandle) (c : Cmd)
    (hna : (run es).active_handle ≠ some h ∨ (run es).next_gen ≤ h.gen) :
    (step (run es) h c).1 = .InvalidHandle := by
  rcases hna with hna | hge
  · rw [step_not_active c hna]
  · have hne : (run es).active_handle ≠ some h := by
      intro hact
      exact absurd (run_genOK es h hact) (Nat.not_lt.mpr hge)
    rw [step_not_active c hne]

/-- Witness for C2: a deferred command on a never-acquired handle against
the fresh stub fails with `InvalidHandle`. -/
theorem palma_C2_witness :
    (step (run []) ⟨0, 0⟩ .ReadPalmaStep).1 = .InvalidHandle :=
  palma_C2_unacquired_handle_fails [] ⟨0, 0⟩ .ReadPalmaStep (Or.inl (by decide))

/-- Claim C3: when handle validation fails, the command mutates no stub
state at all: the operation record, the completion-signal raise count and
level, and indeed the whole state are left exactly as they were. -/
theorem palma_C3_failed_validation_mutates_nothing (s : Stub)
    (h : PalmaConnectionHandle) (c : Cmd) (hna : s.active_handle ≠ some h) :
    (step s h c).1 = .InvalidHandle ∧
    (step s h c).2.operation = s.operation ∧
    (step s h c).2.signal_count = s.signal_count ∧
    (step s h c).2.signaled = s.signaled ∧
    (step s h c).2 = s := by
  rw [step_not_active c hna]
  exact ⟨rfl, rfl, rfl, rfl, rfl⟩

/-- Witness for C3 at a concrete input. -/
theorem palma_C3_witness :
    (step initStub ⟨3, 7⟩ .ReadPalmaStep).1 = .InvalidHandle ∧
    (step initStub ⟨3, 7⟩ .ReadPalmaStep).2.operation = initStub.operation ∧
    (step initStub ⟨3, 7⟩ .ReadPalmaStep).2.signal_count = initStub.signal_count ∧
    (step initStub ⟨3, 7⟩ .ReadPalmaStep).2.signaled = initStub.signaled ∧
    (step initStub ⟨3, 7⟩ .ReadPalmaStep).2 = initStub :=
  palma_C3_failed_validation_mutates_nothing initStub ⟨3, 7⟩ .ReadPalmaStep (by decide)

/-- Claim C4: a deferred command on a valid handle whose connectivity
state is `Acquired` (below `Initialized`) fails with `NotInitialized`,
while the pure flag setters still succeed in that state and store their
flag. -/
theorem palma_C4_not_initialized (s : Stub) (h : PalmaConnectionHandle)
    (c : Cmd) (hv : s.active_handle = some h) (hst : s.conn_state = .Acquired)
    (hd : c.isDeferred = true) :
    (step s h c).1 = .NotInitialized ∧
    (∀ b, (SetIsPalmaAllConnectable s b).is_connectable = b ∧
          (SetPalmaBoostMode s b).boost_mode = b) := by
  refine ⟨?_, fun b => ⟨rfl, rfl⟩⟩
  have hni : s.conn_state.atLeastInit = false := by rw [hst]; rfl
  rw [step, if_pos hv]
  cases c <;> simp [Cmd.isDeferred] at hd <;> simp [stepValid, ifInit, hni]

/-- Witness for C4: after acquire without initialize, `ReadPalmaStep`
fails with `NotInitialized` and the setters still store their flags. -/
theorem palma_C4_witness :
    (step (run [.GetPalmaConnectionHandle 0]) ⟨0, 0⟩ .ReadPalmaStep).1
      = .NotInitialized ∧
    (∀ b, (SetIsPalmaAllConnectable (run [.GetPalmaConnectionHandle 0]) b).is_connectable = b ∧
          (SetPalmaBoostMode (run [.GetPalmaConnectionHandle 0]) b).boost_mode = b) :=
  palma_C4_not_initialized (run [.GetPalmaConnectionHandle 0]) ⟨0, 0⟩
    .ReadPalmaStep (by decide) (by decide) (by decide)

/-- Claim C5: in the scenario acquire, initialize, `SetPalmaFrModeType
B02` on the valid handle, the command succeeds and a following
`GetPalmaOperationInfo` returns kind `SetFrModeType` with a success
result; after a subsequent release, `GetPalmaOperationInfo` on the old
handle fails with `InvalidHandle`. -/
theorem palma_C5_fr_mode_scenario :
    (step (run [.GetPalmaConnectionHandle 0, .cmd ⟨0, 0⟩ .InitializePalma])
        ⟨0, 0⟩ (.SetPalmaFrModeType .B02)).1 = .Success ∧
    GetPalmaOperationInfo
      (run [.GetPalmaConnectionHandle 0, .cmd ⟨0, 0⟩ .InitializePalma,
            .cmd ⟨0, 0⟩ (.SetPalmaFrModeType .B02)]) ⟨0, 0⟩
      = .ok (.SetFrModeType, .Success, zeroPayload) ∧
    GetPalmaOperationInfo
      (run [.GetPalmaConnectionHandle 0, .cmd ⟨0, 0⟩ .InitializePalma,
            .cmd ⟨0, 0⟩ (.SetPalmaFrModeType .B02), .OnRelease]) ⟨0, 0⟩
      = .error .InvalidHandle :=
  ⟨rfl, rfl, rfl⟩

/-- Claim C6: a wave-entry write on a valid, initialized handle whose
declared size disagrees with the actual size of the source memory range
fails with `InvalidParameters` and mutates nothing: the operation record
(and the whole state) is left unchanged, the bounds check happening
before any copy. -/
theorem palma_C6_wave_entry_bounds (s : Stub) (h : PalmaConnectionHandle)
    (w : PalmaWaveSet) (t_mem : List Nat) (size : Nat)
    (hv : s.active_handle = some h) (hinit : s.conn_state.atLeastInit = true)
    (hsz : size ≠ t_mem.length) :
    (step s h (.WritePalmaWaveEntry w t_mem size)).1 = .InvalidParameters ∧
    (step s h (.WritePalmaWaveEntry w t_mem size)).2.operation = s.operation ∧
    (step s h (.WritePalmaWaveEntry w t_mem size)).2 = s := by
  rw [step, if_pos hv]
  simp [stepValid, ifInit, hinit, hsz]

/-- Witness for C6: declared size 5 against an empty source range. -/
theorem palma_C6_witness :
    (step (run [.GetPalmaConnectionHandle 0, .cmd ⟨0, 0⟩ .InitializePalma])
        ⟨0, 0⟩ (.WritePalmaWaveEntry .Small [] 5)).1 = .InvalidParameters ∧
    (step (run [.GetPalmaConnectionHandle 0, .cmd ⟨0, 0⟩ .InitializePalma])
        ⟨0, 0⟩ (.WritePalmaWaveEntry .Small [] 5)).2.operation
      = (run [.GetPalmaConnectionHandle 0, .cmd ⟨0, 0⟩ .InitializePalma]).operation ∧
    (step (run [.GetPalmaConnectionHandle 0, .cmd ⟨0, 0⟩ .InitializePalma])
        ⟨0, 0⟩ (.WritePalmaWaveEntry .Small [] 5)).2
      = run [.GetPalmaConnectionHandle 0, .cmd ⟨0, 0⟩ .InitializePalma] :=
  palma_C6_wave_entry_bounds
    (run [.GetPalmaConnectionHandle 0, .cmd ⟨0, 0⟩ .InitializePalma])
    ⟨0, 0⟩ .Small [] 5 (by decide) (by decide) (by decide)

/-- Claim C7: once the handle that was active at some point is released,
every command on that old handle fails with `InvalidHandle` forever,
whatever happens afterwards, including a later acquire for the same
device identifier. -/
theorem palma_C7_released_handle_invalid_forever (pre post : List Event)
    (h : PalmaConnectionHandle) (c : Cmd)
    (hact : (run pre).active_handle = some h) :
    (step (run (pre ++ .OnRelease :: post)) h c).1 = .InvalidHandle := by
  have hgen : h.gen < (run pre).next_gen := run_genOK pre h hact
  have hstale : Stale h (exec (run pre) .OnRelease) :=
    ⟨by simp [exec, OnRelease], by simpa [exec, OnRelease] using hgen⟩
  have h2 : Stale h (runFrom (exec (run pre) .OnRelease) post) :=
    runFrom_stale hstale post
  have hrw : run (pre ++ .OnRelease :: post)
      = runFrom (exec (run pre) .OnRelease) post := by
    rw [run, runFrom_append]
    rfl
  rw [hrw, step_not_active c h2.1]

/-- Witness for C7: release, then re-acquire the same device identifier;
the old handle still fails. -/
theorem palma_C7_witness :
    (step (run ([.GetPalmaConnectionHandle 0] ++ .OnRelease ::
        [.GetPalmaConnectionHandle 0])) ⟨0, 0⟩ .ReadPalmaStep).1
      = .InvalidHandle :=
  palma_C7_released_handle_invalid_forever [.GetPalmaConnectionHandle 0]
    [.GetPalmaConnectionHandle 0] ⟨0, 0⟩ .ReadPalmaStep (by decide)

/-- Claim C9: the two flag setters are pure: for every prior state, each
only stores its flag and leaves the operation record, the completion
signal (raise count and level) and the connection tracking untouched. -/
theorem palma_C9_flag_setters_pure (s : Stub) (b : Bool) :
    (SetIsPalmaAllConnectable s b).is_connectable = b ∧
    (SetIsPalmaAllConnectable s b).operation = s.operation ∧
    (SetIsPalmaAllConnectable s b).signal_count = s.signal_count ∧
    (SetIsPalmaAllConnectable s b).signaled = s.signaled ∧
    (SetIsPalmaAllConnectable s b).active_handle = s.active_handle ∧
    (SetIsPalmaAllConnectable s b).conn_state = s.conn_state ∧
    (SetPalmaBoostMode s b).boost_mode = b ∧
    (SetPalmaBoostMode s b).operation = s.operation ∧
    (SetPalmaBoostMode s b).signal_count = s.signal_count ∧
    (SetPalmaBoostMode s b).signaled = s.signaled ∧
    (SetPalmaBoostMode s b).active_handle = s.active_handle :=
  ⟨rfl, rfl, rfl, rfl, rfl, rfl, rfl, rfl, rfl, rfl, rfl⟩

/-- Claim C10: before any record-writing deferred command has ever run,
the operation record is default-constructed, so `GetPalmaOperationInfo`
on a valid handle succeeds (rather than failing or returning an empty
indicator) and observes operation kind `PlayActivity` — the enumeration's
zero value — a success result, and the all-zero 320-byte payload. -/
theorem palma_C10_default_record (es : List Event) (h : PalmaConnectionHandle)
    (hw : ∀ e ∈ es, e.writesRecord = false)
    (hv : (run es).active_handle = some h) :
    GetPalmaOperationInfo (run es) h
      = .ok (.PlayActivity, .Success, zeroPayload) ∧
    PalmaOperationType.toCValue .PlayActivity = 0 ∧
    zeroPayload.length = 320 := by
  have hop : (run es).operation = {} := runFrom_operation_default rfl hw
  refine ⟨?_, rfl, by simp [zeroPayload]⟩
  rw [GetPalmaOperationInfo, if_pos hv, hop]

/-- Witness for C10: acquire and initialize only, then read the record. -/
theorem palma_C10_witness :
    GetPalmaOperationInfo
        (run [.GetPalmaConnectionHandle 0, .cmd ⟨0, 0⟩ .InitializePalma]) ⟨0, 0⟩
      = .ok (.PlayActivity, .Success, zeroPayload) ∧
    PalmaOperationType.toCValue .PlayActivity = 0 ∧
    zeroPayload.length = 320 :=
  palma_C10_default_record
    [.GetPalmaConnectionHandle 0, .cmd ⟨0, 0⟩ .InitializePalma] ⟨0, 0⟩
    (by decide) (by decide)

/-- Claim C8 counterexample: the spec's enumerated `ActivityEntry` pieces
(4-byte pattern index, 2 bytes padding, 8-byte wave-set tag, 4-byte wave
index, 12 bytes padding) sum to 30 bytes and would put the wave-set tag
at offset 6, but the source struct is 32 bytes (its `static_assert`) with
the wave-set tag at offset 8: the `u64`-aligned tag forces 2 further
alignment padding bytes the spec's enumeration omits. -/
theorem palma_C8_counterexample :
    specActivityEntryPieces.sum ≠ sizeofC palmaActivityEntryFields ∧
    specActivityEntryPieces.sum = 30 ∧
    (specActivityEntryPieces.take 2).sum = 6 ∧
    sizeofC palmaActivityEntryFields = 32 ∧
    fieldOffsets 0 palmaActivityEntryFields = [0, 4, 8, 16, 20] := by
  decide

/-- Claim C8 (amended): `OperationInfo` is 4-byte-aligned with the 4-byte
operation kind at offset 0, the 4-byte result at offset 4 and the
320-byte payload at offset 8, 328 bytes total; `ActivityEntry` is 32
bytes with the 4-byte pattern index at offset 0, 2 declared padding bytes
plus 2 alignment padding bytes, the 8-byte wave-set tag at offset 8, the
4-byte wave index at offset 16 and 12 trailing padding bytes;
`ConnectionHandle` is 8 bytes: 4-byte device id at offset 0 and 4 bytes
padding. -/
theorem palma_C8_amended_layouts :
    sizeofC palmaOperationInfoFields = 328 ∧
    structAlign palmaOperationInfoFields = 4 ∧
    fieldOffsets 0 palmaOperationInfoFields = [0, 4, 8] ∧
    sizeofC palmaActivityEntryFields = 32 ∧
    fieldOffsets 0 palmaActivityEntryFields = [0, 4, 8, 16, 20] ∧
    structEnd 0 palmaActivityEntryFields = 32 ∧
    sizeofC palmaConnectionHandleFields = 8 ∧
    fieldOffsets 0 palmaConnectionHandleFields = [0, 4] := by
  decide

end Palma
